import Mathlib

/-!
Verification development for the stock data aggregation repository.

The embedding covers the parts of the code the specification talks about:

* the trading-calendar generator and month cache
  (`src/lib/useTradeCalendar.ts`: `transformToCalendarDates`,
  `fetchMonthCalendar`, `getMonthKey`);
* the batch aggregation route and its statistics
  (`src/app/api/tushare/batch-fetch/route.ts`: `GET`,
  `generateBatchStats`, `getTopIndustries`);
* the request validators (`src/lib/api-response.ts`:
  `RequestValidator.dateFormat`, `RequestValidator.stockCode`);
* the upstream client's row transformation
  (`src/lib/tushare-client.ts`: `TushareClient.transformResponse`).

The record merger (`DataTransformer.batchMergeStockData` /
`DataTransformer.createDataMap`) is imported by the route but its source
file is not part of the repository snapshot; those two functions are
modelled from the specification (see the doc comments marked
`Modelled from the spec:`).

JavaScript numbers are modelled as `ℚ` where values are only stored and
compared, and integer percentages computed with `Math.round` are modelled
by exact integer arithmetic (`jsRoundPct`).  JavaScript `NaN` (which the
stats code produces when dividing by a zero record count) is modelled by
`Option`: `none` is `NaN`.
-/

/-! ## Calendar generation (`useTradeCalendar.ts`) -/

/-- One row of the `trade_cal` dataset (`TradeCalendarItem` in
`types/stock.ts`): `is_open` is `1` for a trading day, `0` for a closed
day. -/
structure TradeCalendarItem where
  exchange : String
  cal_date : String
  is_open : Int
  pretrade_date : String
deriving DecidableEq

/-- One generated day (`CalendarDate` in `types/stock.ts`).  The JS
`Date` object is modelled by the `(year, month, day)` triple. -/
structure CalendarDate where
  year : Nat
  month : Nat
  day : Nat
  dateString : String
  isTrading : Bool
  isWeekend : Bool
  isHoliday : Bool
  exchange : String
  tradeDate : String
deriving DecidableEq

/-- Two-digit zero padding, as `String(n).padStart(2, '0')`. -/
def pad2 (n : Nat) : String :=
  if n < 10 then "0" ++ toString n else toString n

/-- `formatDateToString`: `YYYYMMDD` (year unpadded, as in the JS
template literal). -/
def formatDateToString (y m d : Nat) : String :=
  toString y ++ pad2 m ++ pad2 d

/-- Four-digit zero padding for the ISO year. -/
def pad4 (n : Nat) : String :=
  if n < 10 then "000" ++ toString n
  else if n < 100 then "00" ++ toString n
  else if n < 1000 then "0" ++ toString n
  else toString n

/-- `date.toISOString().split('T')[0]` for the local date `(y, m, d)`.
The model identifies local time with UTC; the UTC offset of the host is
outside the embedding. -/
def isoDateString (y m d : Nat) : String :=
  pad4 y ++ "-" ++ pad2 m ++ "-" ++ pad2 d

/-- The Gregorian leap-year rule, as implemented by the JS `Date`
month-arithmetic. -/
def isLeapYear (y : Nat) : Bool :=
  (y % 4 == 0 && y % 100 != 0) || (y % 400 == 0)

/-- `new Date(year, month, 0).getDate()` for `month ∈ 1..12`: the number
of days of month `m` of year `y`. -/
def daysInMonth (y m : Nat) : Nat :=
  if m = 2 then (if isLeapYear y then 29 else 28)
  else if m = 4 ∨ m = 6 ∨ m = 9 ∨ m = 11 then 30
  else 31

/-- `new Date(y, m - 1, d).getDay()` (0 = Sunday … 6 = Saturday), via
Sakamoto's method for the proleptic Gregorian calendar. -/
def dayOfWeek (y m d : Nat) : Nat :=
  let t := [0, 3, 2, 5, 0, 3, 5, 1, 4, 6, 2, 4]
  let y2 := if m < 3 then y - 1 else y
  (y2 + y2 / 4 - y2 / 100 + y2 / 400 + t.getD (m - 1) 0 + d) % 7

/-- The `tradeMap` lookup built by `apiData.forEach(item =>
tradeMap.set(item.cal_date, item))`: for duplicate `cal_date` keys the
last row wins, as with JS `Map.set`. -/
def tradeMapGet (apiData : List TradeCalendarItem) (d : String) :
    Option TradeCalendarItem :=
  apiData.reverse.find? (fun it => it.cal_date == d)

/-- The body of the per-day loop of `transformToCalendarDates`. -/
def mkCalendarDate (ex : String) (apiData : List TradeCalendarItem)
    (y m day : Nat) : CalendarDate :=
  let dateStr := formatDateToString y m day
  let info := tradeMapGet apiData dateStr
  let w := dayOfWeek y m day
  let isW := w == 0 || w == 6
  { year := y, month := m, day := day
    dateString := isoDateString y m day
    isTrading := match info with
      | some i => i.is_open == 1
      | none => false
    isWeekend := isW
    isHoliday := match info with
      | some i => i.is_open == 0 && !isW
      | none => false
    exchange := ex
    tradeDate := dateStr }

/-- `transformToCalendarDates(apiData, year, month)`: one `CalendarDate`
per day `1 .. daysInMonth`, in order.  `ex` is the hook's `exchange`
state used for the `exchange` field. -/
def transformToCalendarDates (ex : String)
    (apiData : List TradeCalendarItem) (y m : Nat) : List CalendarDate :=
  (List.range' 1 (daysInMonth y m)).map (mkCalendarDate ex apiData y m)

/-! ## Month calendar cache (`useTradeCalendar.ts`) -/

/-- `MonthCalendarData` in `types/stock.ts`. -/
structure MonthCalendarData where
  year : Nat
  month : Nat
  dates : List CalendarDate
  tradingDays : Nat
  lastUpdate : String
deriving DecidableEq

/-- `getMonthKey`: the cache key `"{year}-{padded month}-{exchange}"`. -/
def getMonthKey (y m : Nat) (ex : String) : String :=
  toString y ++ "-" ++ pad2 m ++ "-" ++ ex

/-- The hook's `calendarData` map state, as an association list.  JS
`Map` lookup; iteration order is never observed by the hook. -/
structure CalendarCacheState where
  calendarData : List (String × MonthCalendarData)
deriving DecidableEq

/-- `Map.get` (also covering the `has` check of the source, which is
`isSome` of this). -/
def cacheGet (l : List (String × MonthCalendarData)) (k : String) :
    Option MonthCalendarData :=
  (l.find? (fun p => p.1 == k)).map (fun p => p.2)

/-- `new Map(prev).set(key, v)`: rebinds `key`, keeps all other keys. -/
def cacheSet (l : List (String × MonthCalendarData)) (k : String)
    (v : MonthCalendarData) : List (String × MonthCalendarData) :=
  (k, v) :: l.filter (fun p => p.1 ≠ k)

/-- The generation path of `fetchMonthCalendar` after a successful
API response `markers`: transform, count trading days, stamp `now`. -/
def buildMonthData (hookExchange : String)
    (markers : List TradeCalendarItem) (y m : Nat) (now : String) :
    MonthCalendarData :=
  let dates := transformToCalendarDates hookExchange markers y m
  { year := y, month := m, dates := dates
    tradingDays := (dates.filter (fun d => d.isTrading)).length
    lastUpdate := now }

/-- `fetchMonthCalendar(year, month, targetExchange, forceRefresh)` on
the happy path, with the network call abstracted by the marker list it
returns.  The result is `(returned entry, new cache state, number of
fetch-and-generate operations performed)`: the count is `0` on a cache
hit (neither the API nor `transformToCalendarDates` runs) and `1`
otherwise.  `hx` is the hook's `exchange` state captured by the
closure. -/
def fetchMonthCalendar (st : CalendarCacheState) (y m : Nat)
    (tx hx : String) (forceRefresh : Bool)
    (markers : List TradeCalendarItem) (now : String) :
    MonthCalendarData × CalendarCacheState × Nat :=
  let key := getMonthKey y m tx
  match forceRefresh, cacheGet st.calendarData key with
  | false, some cached => (cached, st, 0)
  | _, _ =>
      let md := buildMonthData hx markers y m now
      (md, ⟨cacheSet st.calendarData key md⟩, 1)

/-! ## Record merging (route `batch-fetch` + `DataTransformer`) -/

/-- One roster row of the `stock_basic` dataset, shaped by the field
list `ts_code,symbol,name,area,industry,market,list_date`. -/
structure StockBasicRow where
  ts_code : String
  symbol : String
  name : String
  area : String
  industry : String
  market : String
  list_date : String
deriving DecidableEq

/-- One quote row of the `daily` dataset (the columns the merge copies;
remaining columns of the field list do not influence the pipeline). -/
structure DailyRow where
  ts_code : String
  trade_date : String
  close : ℚ
  pre_close : ℚ
  change : ℚ
  pct_chg : ℚ
  vol : ℚ
  amount : ℚ
deriving DecidableEq

/-- One valuation row of the `daily_basic` dataset. -/
structure DailyBasicRow where
  ts_code : String
  trade_date : String
  pe : ℚ
  pb : ℚ
  ps : ℚ
  turnover_rate : ℚ
  total_mv : ℚ
  circ_mv : ℚ
deriving DecidableEq

/-- The quote overlay group of a merged record (all-or-nothing):
`currentPrice` is the row's `close`, `pe` is read by the stats code as
the TTM P/E field. -/
structure QuoteOverlay where
  currentPrice : ℚ
  prevClose : ℚ
  change : ℚ
  changePercent : ℚ
  volume : ℚ
  amount : ℚ
  tradeDate : String
deriving DecidableEq

/-- The valuation overlay group of a merged record (all-or-nothing). -/
structure IndicatorOverlay where
  pe : ℚ
  pb : ℚ
  ps : ℚ
  turnoverRate : ℚ
  totalMv : ℚ
  circMv : ℚ
deriving DecidableEq

/-- A merged `Stock` record: roster attributes plus the two optional
overlay groups. -/
structure Stock where
  code : String
  symbol : String
  name : String
  area : String
  industry : String
  market : String
  listDate : String
  quote : Option QuoteOverlay
  indicators : Option IndicatorOverlay
deriving DecidableEq

/-- Modelled from the spec: `RecordKeyer` (§4.2), the composite key
`instrument id + trade date` with a separator valid in neither
component; the source of `DataTransformer` is not in the repository
snapshot. -/
def recordKey (instrumentId tradeDate : String) : String :=
  instrumentId ++ "|" ++ tradeDate

/-- Modelled from the spec: `DataTransformer.createDataMap` for quote
rows — "build one lookup map per overlay (key → row)" (§4.3), keyed by
`recordKey`. -/
def createDataMapDaily (rows : List DailyRow) :
    List (String × DailyRow) :=
  rows.map (fun r => (recordKey r.ts_code r.trade_date, r))

/-- Modelled from the spec: `DataTransformer.createDataMap` for
valuation rows. -/
def createDataMapBasic (rows : List DailyBasicRow) :
    List (String × DailyBasicRow) :=
  rows.map (fun r => (recordKey r.ts_code r.trade_date, r))

/-- Overlay map lookup; for duplicate keys the last row wins, as with
JS `Map.set`. -/
def lookupRow {α : Type} (m : List (String × α)) (k : String) :
    Option α :=
  (m.reverse.find? (fun p => p.1 == k)).map (fun p => p.2)

/-- Modelled from the spec: `DataTransformer.batchMergeStockData` on one
roster row (§4.3) — construct the record from roster fields; for each
present overlay look up the composite key and copy the overlay's full
field set, else leave the group absent.  Within one aggregation request
every row carries the request's `trade_date` (§6), which therefore keys
the roster side. -/
def mergeOne (tradeDate : String)
    (dm : Option (List (String × DailyRow)))
    (bm : Option (List (String × DailyBasicRow)))
    (r : StockBasicRow) : Stock :=
  let k := recordKey r.ts_code tradeDate
  { code := r.ts_code, symbol := r.symbol, name := r.name
    area := r.area, industry := r.industry, market := r.market
    listDate := r.list_date
    quote := match dm with
      | none => none
      | some m => (lookupRow m k).map (fun d =>
          { currentPrice := d.close, prevClose := d.pre_close
            change := d.change, changePercent := d.pct_chg
            volume := d.vol, amount := d.amount
            tradeDate := d.trade_date })
    indicators := match bm with
      | none => none
      | some m => (lookupRow m k).map (fun b =>
          { pe := b.pe, pb := b.pb, ps := b.ps
            turnoverRate := b.turnover_rate
            totalMv := b.total_mv, circMv := b.circ_mv }) }

/-- Modelled from the spec: `DataTransformer.batchMergeStockData`
(§4.3) — the roster defines output cardinality and order; overlays
never introduce or remove rows. -/
def batchMergeStockData (tradeDate : String)
    (roster : List StockBasicRow)
    (dm : Option (List (String × DailyRow)))
    (bm : Option (List (String × DailyBasicRow))) : List Stock :=
  roster.map (mergeOne tradeDate dm bm)

/-- The roster attributes of a merged record. -/
def rosterOf (s : Stock) : StockBasicRow :=
  ⟨s.code, s.symbol, s.name, s.area, s.industry, s.market, s.listDate⟩

/-- Step 2/3 of the route `GET`: the overlay map is populated only when
the fetch succeeded with a non-empty row list; an exception
(`Except.error`) is caught by the route's `try`/`catch` and leaves the
map `undefined`. -/
def overlayOfDailyFetch (fetch : Except String (List DailyRow)) :
    Option (List (String × DailyRow)) :=
  match fetch with
  | Except.error _ => none
  | Except.ok rows =>
      if 0 < rows.length then some (createDataMapDaily rows) else none

/-- Step 3 of the route `GET`, for the valuation overlay. -/
def overlayOfBasicFetch (fetch : Except String (List DailyBasicRow)) :
    Option (List (String × DailyBasicRow)) :=
  match fetch with
  | Except.error _ => none
  | Except.ok rows =>
      if 0 < rows.length then some (createDataMapBasic rows) else none

/-- Steps 2–4 of the route `GET`: build the two overlay maps (only when
the corresponding `include_*` flag is set) and merge.  The fetches are
abstracted by their outcomes. -/
def batchFetchMerge (im ib : Bool) (td : String)
    (roster : List StockBasicRow)
    (df : Except String (List DailyRow))
    (bf : Except String (List DailyBasicRow)) : List Stock :=
  let dm := if im then overlayOfDailyFetch df else none
  let bm := if ib then overlayOfBasicFetch bf else none
  batchMergeStockData td roster dm bm

/-! ## Statistics (`generateBatchStats`, `getTopIndustries`) -/

/-- `Math.round((cnt / len) * 100)` for natural `cnt ≤ len`, `0 < len`,
as exact integer arithmetic: `⌊100·cnt/len + 1/2⌋ = (200·cnt + len) / (2·len)`
(`Math.round` rounds half up). -/
def jsRoundPct (cnt len : Nat) : Nat :=
  (200 * cnt + len) / (2 * len)

/-- `stock.所属行业 || stock.industry || '未知'` for a record produced by
this route (which never sets `所属行业`): the roster industry, with the
empty string falling back to `'未知'`. -/
def industryOf (s : Stock) : String :=
  if s.industry = "" then "未知" else s.industry

/-- `industryCount[industry] = (industryCount[industry] || 0) + 1`:
increment in place, first occurrence fixes the position (JS objects
iterate non-numeric string keys in insertion order). -/
def bumpIndustry : List (String × Nat) → String → List (String × Nat)
  | [], ind => [(ind, 1)]
  | (k, c) :: rest, ind =>
      if k = ind then (k, c + 1) :: rest
      else (k, c) :: bumpIndustry rest ind

/-- The `industryCount` accumulation of `getTopIndustries`. -/
def industryCounts (stocks : List Stock) : List (String × Nat) :=
  stocks.foldl (fun acc s => bumpIndustry acc (industryOf s)) []

/-- Stable insertion used to model `.sort(([,a],[,b]) => b - a)` (ES
stable sort, descending by count): a new element goes after the already
placed elements of equal or larger count. -/
def insertByCountDesc (x : String × Nat) :
    List (String × Nat) → List (String × Nat)
  | [] => [x]
  | y :: rest =>
      if x.2 ≤ y.2 then y :: insertByCountDesc x rest
      else x :: y :: rest

/-- Stable descending sort by count (left fold of stable insertions). -/
def sortByCountDesc (l : List (String × Nat)) : List (String × Nat) :=
  l.foldl (fun acc x => insertByCountDesc x acc) []

/-- One entry of the `industries` stats block. -/
structure IndustryStat where
  industry : String
  count : Nat
  percentage : Nat
deriving DecidableEq

/-- `getTopIndustries(stocks, top)`.  The percentage division only runs
for entries, which exist only when `stocks` is non-empty. -/
def getTopIndustries (stocks : List Stock) (top : Nat) :
    List IndustryStat :=
  ((sortByCountDesc (industryCounts stocks)).take top).map
    (fun p => { industry := p.1, count := p.2
                percentage := jsRoundPct p.2 stocks.length })

/-- The metadata argument of `generateBatchStats`. -/
structure BatchMetadata where
  total_basic : Nat
  processed : Nat
  has_market_data : Bool
  has_basic_indicators : Bool
  market_data_count : Nat
  basic_indicators_count : Nat
  trade_date : String
deriving DecidableEq

/-- The `stats` object of `generateBatchStats`, flattened.  The two
coverage fields are `Option Nat`: `none` models the JS `NaN` that
`Math.round((x / stocks.length) * 100)` yields when `stocks.length`
is `0`. -/
structure BatchStats where
  total_stocks : Nat
  total_basic_available : Nat
  processed_count : Nat
  with_market_data : Nat
  with_basic_indicators : Nat
  trade_date : String
  markets_SH : Nat
  markets_SZ : Nat
  industries : List IndustryStat
  basic_info_complete : Nat
  market_data_coverage : Option Nat
  basic_indicators_coverage : Option Nat
  data_sources : List String
  api_calls_made : Nat
  total_records_processed : Nat
deriving DecidableEq

/-- `s.currentPrice && s.currentPrice > 0` on a merged record: the quote
group is present and its price is positive (`undefined` and `0` are
falsy). -/
def hasPositivePrice (s : Stock) : Bool :=
  match s.quote with
  | some q => decide (0 < q.currentPrice)
  | none => false

/-- `s['TTM市盈率'] && s['TTM市盈率'] > 0` on a merged record: the
valuation group is present with a positive P/E. -/
def hasPositivePE (s : Stock) : Bool :=
  match s.indicators with
  | some b => decide (0 < b.pe)
  | none => false

/-- `Math.round((cnt / total) * 100)` with the `NaN` case: `cnt ≤ total`
always holds at the call sites, so `total = 0` forces `0 / 0`. -/
def coverageOf (cnt total : Nat) : Option Nat :=
  if total = 0 then none else some (jsRoundPct cnt total)

/-- `generateBatchStats(stocks, metadata)`. -/
def generateBatchStats (stocks : List Stock) (md : BatchMetadata) :
    BatchStats :=
  let wmd := if md.has_market_data
    then (stocks.filter hasPositivePrice).length else 0
  let wbi := if md.has_basic_indicators
    then (stocks.filter hasPositivePE).length else 0
  { total_stocks := stocks.length
    total_basic_available := md.total_basic
    processed_count := md.processed
    with_market_data := wmd
    with_basic_indicators := wbi
    trade_date := md.trade_date
    markets_SH := (stocks.filter (fun s => s.market == "SH")).length
    markets_SZ := (stocks.filter (fun s => s.market == "SZ")).length
    industries := getTopIndustries stocks 10
    basic_info_complete := stocks.length
    market_data_coverage :=
      if md.has_market_data then coverageOf wmd stocks.length else some 0
    basic_indicators_coverage :=
      if md.has_basic_indicators then coverageOf wbi stocks.length
      else some 0
    data_sources :=
      (if md.has_market_data then ["daily_market_data"] else []) ++
      (if md.has_basic_indicators then ["daily_basic_indicators"] else [])
    api_calls_made :=
      1 + (if md.has_market_data then 1 else 0) +
      (if md.has_basic_indicators then 1 else 0)
    total_records_processed := stocks.length }

/-! ## Request validation (`api-response.ts`) and the route's
pre-network phase -/

/-- The error taxonomy observed by the route's `catch`:
`validation` is a thrown `ValidationError`, `generic` a plain
`Error`. -/
inductive RouteError where
  | validation (msg : String)
  | generic (msg : String)
deriving DecidableEq

/-- `/^\d{8}$/.test(s)`. -/
def isDate8 (s : String) : Bool :=
  s.length == 8 && s.toList.all (fun c => c.isDigit)

/-- `/^\d{6}\.(SH|SZ)$/.test(s)`. -/
def isStockCodeFormat (s : String) : Bool :=
  match s.toList with
  | [d1, d2, d3, d4, d5, d6, dot, e1, e2] =>
      d1.isDigit && d2.isDigit && d3.isDigit && d4.isDigit &&
      d5.isDigit && d6.isDigit && dot == '.' &&
      e1 == 'S' && (e2 == 'H' || e2 == 'Z')
  | _ => false

namespace RequestValidator

/-- `RequestValidator.dateFormat(date, fieldName)`: throws only when
`date` is truthy (non-empty) and fails the 8-digit test. -/
def dateFormat (date : String) (fieldName : String) :
    Except RouteError Unit :=
  if date != "" && !isDate8 date then
    Except.error (RouteError.validation
      ("Invalid " ++ fieldName ++ " format. Expected YYYYMMDD, got: "
        ++ date))
  else Except.ok ()

/-- `RequestValidator.stockCode(code, fieldName)`: throws only when
`code` is truthy (non-empty) and fails the pattern test. -/
def stockCode (code : String) (fieldName : String) :
    Except RouteError Unit :=
  if code != "" && !isStockCodeFormat code then
    Except.error (RouteError.validation
      ("Invalid " ++ fieldName ++
        " format. Expected XXXXXX.SH or XXXXXX.SZ, got: " ++ code))
  else Except.ok ()

end RequestValidator

/-- `searchParams.get('trade_date') || getDateDaysAgo(1)`: `null` and
the empty string both fall back to the default date. -/
def effectiveTradeDate (tradeDateParam : Option String)
    (defaultDate : String) : String :=
  match tradeDateParam with
  | none => defaultDate
  | some s => if s == "" then defaultDate else s

/-- `if (market && !['SH','SZ'].includes(market)) throw new Error(...)`. -/
def marketCheck (market : Option String) : Except RouteError Unit :=
  match market with
  | some m =>
      if m != "" && !(m == "SH" || m == "SZ") then
        Except.error (RouteError.generic "Market must be SH or SZ")
      else Except.ok ()
  | none => Except.ok ()

/-- The parameter phase of the route `GET` (lines 17–39): resolve the
effective trade date, check the market filter, then
`RequestValidator.dateFormat`.  Everything here runs before
`new TushareClient()` and before any fetch. -/
def batchFetchValidate (market tradeDateParam : Option String)
    (defaultDate : String) : Except RouteError String :=
  let td := effectiveTradeDate tradeDateParam defaultDate
  match marketCheck market with
  | Except.error e => Except.error e
  | Except.ok _ =>
      match RequestValidator.dateFormat td "trade_date" with
      | Except.error e => Except.error e
      | Except.ok _ => Except.ok td

/-- The whole route `GET`, with each network call abstracted by its
outcome.  The fetch arguments are consumed only after validation
succeeds: on a validation failure the result is the same for every
fetch outcome, i.e. the upstream client is never invoked.  `limitNum`
is `parseInt(limit)` when the parameter parsed to a number. -/
def batchFetchRoute (market tradeDateParam : Option String)
    (defaultDate : String) (im ib : Bool) (limitNum : Option Nat)
    (rosterFetch : Except String (List StockBasicRow))
    (df : Except String (List DailyRow))
    (bf : Except String (List DailyBasicRow)) :
    Except RouteError (List Stock × BatchStats) :=
  match batchFetchValidate market tradeDateParam defaultDate with
  | Except.error e => Except.error e
  | Except.ok td =>
      match rosterFetch with
      | Except.error msg => Except.error (RouteError.generic msg)
      | Except.ok stockBasicData =>
          if stockBasicData.length == 0 then
            Except.error (RouteError.generic "未获取到股票基本信息数据")
          else
            let limited := match limitNum with
              | some n =>
                  if 0 < n then stockBasicData.take n else stockBasicData
              | none => stockBasicData
            let dm := if im then overlayOfDailyFetch df else none
            let bm := if ib then overlayOfBasicFetch bf else none
            let stocks := batchMergeStockData td limited dm bm
            let stats := generateBatchStats stocks
              { total_basic := stockBasicData.length
                processed := limited.length
                has_market_data := dm.isSome
                has_basic_indicators := bm.isSome
                market_data_count :=
                  match dm with
                  | some l => ((l.map Prod.fst).dedup).length
                  | none => 0
                basic_indicators_count :=
                  match bm with
                  | some l => ((l.map Prod.fst).dedup).length
                  | none => 0
                trade_date := td }
            Except.ok (stocks, stats)

/-! ## Upstream client response transformation (`tushare-client.ts`) -/

/-- One cell of a tabular response row. -/
inductive JsVal where
  | num (q : ℚ)
  | str (s : String)
  | null
deriving DecidableEq

/-- The `data` block of a `TushareResponse`; `fields` and `items` are
each independently nullable. -/
structure TushareData where
  fields : Option (List String)
  items : Option (List (List JsVal))
  has_more : Bool

/-- A `TushareResponse`. -/
structure TushareResponse where
  request_id : String
  code : Int
  msg : String
  data : Option TushareData

/-- The greatest index at which `f` occurs in `fields`, if any: after
`fields.forEach((field, index) => obj[field] = item[index])` the object
holds, for each occurring name, the value written at its last
occurrence. -/
def lastIndexOf (fields : List String) (f : String) : Option Nat :=
  match fields with
  | [] => none
  | a :: rest =>
      match lastIndexOf rest f with
      | some j => some (j + 1)
      | none => if a == f then some 0 else none

/-- The row object built by `transformResponse` for one `item`, as its
property-lookup function: `none` means the property is absent, `some
(item.get? i)` the value assigned at the last occurrence `i` of the
name (reading past the row's end gives `undefined`, i.e. `some
none`). -/
def rowObject (fields : List String) (item : List JsVal) (f : String) :
    Option (Option JsVal) :=
  (lastIndexOf fields f).map (fun i => item.get? i)

/-- `TushareClient.transformResponse`: empty array when `data`,
`data.fields` or `data.items` is missing, else one object per item
row. -/
def transformResponse (r : TushareResponse) :
    List (String → Option (Option JsVal)) :=
  match r.data with
  | none => []
  | some d =>
      match d.fields, d.items with
      | some fs, some its => its.map (fun it => rowObject fs it)
      | _, _ => []

/-! ## Theorems -/

/-- C1: for every roster row list and all overlay datasets (each present
or absent), the merged output contains exactly one record per roster
row, in the same order as the roster input; overlay rows whose composite
key matches no roster row never produce an extra output record (the
output is fully determined in cardinality and order by the roster, for
every overlay content). -/
theorem batchMerge_preserves_roster (td : String)
    (roster : List StockBasicRow)
    (dm : Option (List (String × DailyRow)))
    (bm : Option (List (String × DailyBasicRow))) :
    (batchMergeStockData td roster dm bm).map rosterOf = roster ∧
    (batchMergeStockData td roster dm bm).length = roster.length := by
  constructor
  · induction roster with
    | nil => rfl
    | cons r rest ih =>
        simp [batchMergeStockData] at ih ⊢
        exact ⟨rfl, ih⟩
  · simp [batchMergeStockData]

/-- C2: if an optional overlay fetch throws, the aggregation still
completes and the merged result equals the result of passing that
overlay as explicitly absent; the roster and the other overlay are
processed unchanged (the failed fetch's slot is interchangeable with
any other outcome under `include = false`). -/
theorem overlay_failure_isolated (im ib : Bool) (td : String)
    (roster : List StockBasicRow)
    (df : Except String (List DailyRow))
    (bf : Except String (List DailyBasicRow)) (e1 e2 : String) :
    batchFetchMerge im ib td roster (Except.error e1) bf =
      batchMergeStockData td roster none
        (if ib then overlayOfBasicFetch bf else none) ∧
    batchFetchMerge im ib td roster df (Except.error e2) =
      batchMergeStockData td roster
        (if im then overlayOfDailyFetch df else none) none ∧
    batchFetchMerge true ib td roster (Except.error e1) bf =
      batchFetchMerge false ib td roster df bf ∧
    batchFetchMerge im true td roster df (Except.error e2) =
      batchFetchMerge im false td roster df bf := by
  refine ⟨?_, ?_, ?_, ?_⟩ <;> cases im <;> cases ib <;> rfl

/-- C10: both format validators accept the empty string (the checks are
guarded by JS truthiness, so they apply only to non-empty input), even
though the empty string matches neither pattern. -/
theorem validators_accept_empty_string :
    RequestValidator.dateFormat "" "trade_date" = Except.ok () ∧
    RequestValidator.stockCode "" "ts_code" = Except.ok () ∧
    isDate8 "" = false ∧
    isStockCodeFormat "" = false :=
  ⟨rfl, rfl, rfl, rfl⟩

/-- C4: for every year, month (1-12) and marker list the generator
returns exactly the correct number of days for that month (28/29/30/31,
accounting for leap years), one entry per calendar day with unique days
in ascending order; for February 2024 with an empty marker list it
returns 29 days, all non-trading, with weekend flags matching the
actual weekdays of February 2024. -/
theorem transformToCalendarDates_month_shape (ex : String)
    (markers : List TradeCalendarItem) (y m : Nat)
    (h1 : 1 ≤ m) (h2 : m ≤ 12) :
    (transformToCalendarDates ex markers y m).length = daysInMonth y m ∧
    (transformToCalendarDates ex markers y m).map (fun d => d.day) =
      List.range' 1 (daysInMonth y m) ∧
    (daysInMonth y m = 28 ∨ daysInMonth y m = 29 ∨
      daysInMonth y m = 30 ∨ daysInMonth y m = 31) ∧
    (m = 2 → daysInMonth y m = (if isLeapYear y then 29 else 28)) ∧
    ((m = 4 ∨ m = 6 ∨ m = 9 ∨ m = 11) → daysInMonth y m = 30) ∧
    ((m = 1 ∨ m = 3 ∨ m = 5 ∨ m = 7 ∨ m = 8 ∨ m = 10 ∨ m = 12) →
      daysInMonth y m = 31) ∧
    (transformToCalendarDates "SSE" [] 2024 2).length = 29 ∧
    (∀ d ∈ transformToCalendarDates "SSE" [] 2024 2,
      d.isTrading = false ∧ d.isHoliday = false) ∧
    (transformToCalendarDates "SSE" [] 2024 2).map
        (fun d => (d.day, d.isWeekend)) =
      [(1, false), (2, false), (3, true), (4, true), (5, false),
       (6, false), (7, false), (8, false), (9, false), (10, true),
       (11, true), (12, false), (13, false), (14, false), (15, false),
       (16, false), (17, true), (18, true), (19, false), (20, false),
       (21, false), (22, false), (23, false), (24, true), (25, true),
       (26, false), (27, false), (28, false), (29, false)] := by
  refine ⟨?_, ?_, ?_, ?_, ?_, ?_, by decide, by decide, by decide⟩
  · simp [transformToCalendarDates]
  · simp [transformToCalendarDates, List.map_map]
    exact List.map_id _
  · by_cases hm2 : m = 2
    · cases hl : isLeapYear y <;> simp [daysInMonth, hm2, hl]
    · by_cases hm30 : m = 4 ∨ m = 6 ∨ m = 9 ∨ m = 11 <;>
        simp [daysInMonth, hm2, hm30]
  · intro hm2
    simp [daysInMonth, hm2]
  · intro hm30
    have hm2 : ¬m = 2 := by rcases hm30 with h | h | h | h <;> omega
    simp [daysInMonth, hm2, hm30]
  · intro hm31
    have hm2 : ¬m = 2 := by
      rcases hm31 with h | h | h | h | h | h | h <;> omega
    have hm30 : ¬(m = 4 ∨ m = 6 ∨ m = 9 ∨ m = 11) := by
      rcases hm31 with h | h | h | h | h | h | h <;> omega
    simp [daysInMonth, hm2, hm30]

/-- C4 witness at February 2024. -/
theorem transformToCalendarDates_month_shape_witness :
    (transformToCalendarDates "SSE" [] 2024 2).length =
      daysInMonth 2024 2 :=
  (transformToCalendarDates_month_shape "SSE" [] 2024 2 (by decide)
    (by decide)).1

/-- C5: a generated day with no marker has `isTrading = false` and
`isHoliday = false`; a day whose marker is open (`is_open = 1`) has
`isTrading = true` and `isHoliday = false`; a day whose marker is
closed (`is_open = 0`) has `isHoliday = true` exactly when it is not a
weekend; and a Saturday or Sunday has `isWeekend = true` for every
marker list. -/
theorem calendarDate_marker_flags (ex : String)
    (markers : List TradeCalendarItem) (y m : Nat) (d : CalendarDate)
    (hd : d ∈ transformToCalendarDates ex markers y m) :
    (tradeMapGet markers d.tradeDate = none →
      d.isTrading = false ∧ d.isHoliday = false) ∧
    (∀ info, tradeMapGet markers d.tradeDate = some info →
      info.is_open = 1 → d.isTrading = true ∧ d.isHoliday = false) ∧
    (∀ info, tradeMapGet markers d.tradeDate = some info →
      info.is_open = 0 → d.isHoliday = !d.isWeekend) ∧
    (dayOfWeek y m d.day = 0 ∨ dayOfWeek y m d.day = 6 →
      d.isWeekend = true) := by
  simp only [transformToCalendarDates, List.mem_map] at hd
  obtain ⟨day, -, rfl⟩ := hd
  refine ⟨?_, ?_, ?_, ?_⟩
  · intro h
    simp [mkCalendarDate] at h ⊢
    simp [h]
  · intro info h hopen
    simp [mkCalendarDate] at h ⊢
    simp [h, hopen]
  · intro info h hclosed
    simp [mkCalendarDate] at h ⊢
    simp [h, hclosed]
  · intro h
    rcases h with h | h <;> simp [mkCalendarDate] at h ⊢ <;> simp [h]

/-- C5 witness: February 5, 2024 (a Monday) with an open marker. -/
theorem calendarDate_marker_flags_witness :
    (mkCalendarDate "SSE" [⟨"SSE", "20240205", 1, "20240202"⟩] 2024 2
        5).isTrading = true ∧
    (mkCalendarDate "SSE" [⟨"SSE", "20240205", 1, "20240202"⟩] 2024 2
        5).isHoliday = false := by
  have h := calendarDate_marker_flags "SSE"
    [⟨"SSE", "20240205", 1, "20240202"⟩] 2024 2
    (mkCalendarDate "SSE" [⟨"SSE", "20240205", 1, "20240202"⟩] 2024 2 5)
    (by decide)
  exact h.2.1 ⟨"SSE", "20240205", 1, "20240202"⟩ (by decide) rfl

/-- C6 counterexample: March 2, 2024 is a Saturday; with a marker
declaring it open, the generated day has a marker, `isTrading = true`
and `isWeekend = true`, so "exactly one of `isTrading` or (`isHoliday`
or `isWeekend`)" fails (both sides hold). -/
theorem calendar_exactly_one_counterexample :
    ((transformToCalendarDates "SSE"
        [⟨"SSE", "20240302", 1, "20240301"⟩] 2024 3).get? 1).map
        (fun d => (d.isTrading, d.isWeekend, d.isHoliday,
          (tradeMapGet [⟨"SSE", "20240302", 1, "20240301"⟩]
            d.tradeDate).isSome)) =
      some (true, true, false, true) := by decide

/-- C6 amended: for every generated day carrying a marker with
`is_open ∈ {0, 1}`, except an open marker falling on a Saturday or
Sunday, exactly one of `isTrading` or (`isHoliday` or `isWeekend`)
holds; an open marker on a weekend day makes both `isTrading` and
`isWeekend` true. -/
theorem calendarDate_exactly_one_amended (ex : String)
    (markers : List TradeCalendarItem) (y m : Nat) (d : CalendarDate)
    (hd : d ∈ transformToCalendarDates ex markers y m)
    (info : TradeCalendarItem)
    (hs : tradeMapGet markers d.tradeDate = some info)
    (hio : info.is_open = 0 ∨ info.is_open = 1)
    (hw : ¬(info.is_open = 1 ∧ d.isWeekend = true)) :
    (d.isTrading = true ∧ (d.isHoliday || d.isWeekend) = false) ∨
    (d.isTrading = false ∧ (d.isHoliday || d.isWeekend) = true) := by
  simp only [transformToCalendarDates, List.mem_map] at hd
  obtain ⟨day, -, rfl⟩ := hd
  simp only [mkCalendarDate] at hs hw ⊢
  rcases hio with h0 | h1
  · right
    simp [hs, h0]
    tauto
  · left
    have hnw : (dayOfWeek y m day == 0 || dayOfWeek y m day == 6) =
        false := by
      rcases Bool.eq_false_or_eq_true
          (dayOfWeek y m day == 0 || dayOfWeek y m day == 6) with hh | hh
      · exact absurd ⟨h1, hh⟩ hw
      · exact hh
    simp [hs, h1, hnw]

/-- C6 amended witness: March 4, 2024 (a Monday) with a closed
marker. -/
theorem calendarDate_exactly_one_amended_witness :
    ((mkCalendarDate "SSE" [⟨"SSE", "20240304", 0, "20240301"⟩] 2024 3
        4).isTrading = true ∧
      ((mkCalendarDate "SSE" [⟨"SSE", "20240304", 0, "20240301"⟩] 2024 3
        4).isHoliday ||
       (mkCalendarDate "SSE" [⟨"SSE", "20240304", 0, "20240301"⟩] 2024 3
        4).isWeekend) = false) ∨
    ((mkCalendarDate "SSE" [⟨"SSE", "20240304", 0, "20240301"⟩] 2024 3
        4).isTrading = false ∧
      ((mkCalendarDate "SSE" [⟨"SSE", "20240304", 0, "20240301"⟩] 2024 3
        4).isHoliday ||
       (mkCalendarDate "SSE" [⟨"SSE", "20240304", 0, "20240301"⟩] 2024 3
        4).isWeekend) = true) :=
  calendarDate_exactly_one_amended "SSE"
    [⟨"SSE", "20240304", 0, "20240301"⟩] 2024 3
    (mkCalendarDate "SSE" [⟨"SSE", "20240304", 0, "20240301"⟩] 2024 3 4)
    (by decide) ⟨"SSE", "20240304", 0, "20240301"⟩ (by decide)
    (Or.inl rfl) (by decide)

/-- `Map.get` after `Map.set` of the same key. -/
theorem cacheGet_cacheSet_self (l : List (String × MonthCalendarData))
    (k : String) (v : MonthCalendarData) :
    cacheGet (cacheSet l k v) k = some v := by
  simp [cacheGet, cacheSet, List.find?_cons]

/-- C3: a non-forced `fetchMonthCalendar` call that finds a cache entry
returns it unchanged with no fetch/generation; from a state without the
entry, two successive non-forced calls return the identical entry and
perform exactly one generation (the first); a forced call always
re-fetches and regenerates, replacing the entry wholesale with the
fresh result. -/
theorem fetchMonthCalendar_cache (st : CalendarCacheState) (y m : Nat)
    (tx hx : String) (o1 o2 : List TradeCalendarItem) (n1 n2 : String) :
    (∀ cached, cacheGet st.calendarData (getMonthKey y m tx) =
        some cached →
      fetchMonthCalendar st y m tx hx false o1 n1 = (cached, st, 0)) ∧
    (cacheGet st.calendarData (getMonthKey y m tx) = none →
      (fetchMonthCalendar st y m tx hx false o1 n1).2.2 = 1 ∧
      (fetchMonthCalendar
          (fetchMonthCalendar st y m tx hx false o1 n1).2.1
          y m tx hx false o2 n2).1 =
        (fetchMonthCalendar st y m tx hx false o1 n1).1 ∧
      (fetchMonthCalendar
          (fetchMonthCalendar st y m tx hx false o1 n1).2.1
          y m tx hx false o2 n2).2.2 = 0) ∧
    ((fetchMonthCalendar st y m tx hx true o1 n1).1 =
        buildMonthData hx o1 y m n1 ∧
      (fetchMonthCalendar st y m tx hx true o1 n1).2.2 = 1 ∧
      cacheGet (fetchMonthCalendar st y m tx hx true o1 n1).2.1.calendarData
          (getMonthKey y m tx) =
        some (buildMonthData hx o1 y m n1)) := by
  refine ⟨?_, ?_, ?_⟩
  · intro cached h
    simp [fetchMonthCalendar, h]
  · intro h
    simp [fetchMonthCalendar, h, cacheGet_cacheSet_self]
  · exact ⟨rfl, rfl, cacheGet_cacheSet_self _ _ _⟩

/-- C3 witness: cold start, March 2024, two non-forced calls. -/
theorem fetchMonthCalendar_cache_witness :
    (fetchMonthCalendar ⟨[]⟩ 2024 3 "SSE" "SSE" false [] "t1").2.2 = 1 ∧
    (fetchMonthCalendar
        (fetchMonthCalendar ⟨[]⟩ 2024 3 "SSE" "SSE" false [] "t1").2.1
        2024 3 "SSE" "SSE" false [] "t2").1 =
      (fetchMonthCalendar ⟨[]⟩ 2024 3 "SSE" "SSE" false [] "t1").1 := by
  have h :=
    (fetchMonthCalendar_cache ⟨[]⟩ 2024 3 "SSE" "SSE" [] [] "t1" "t2").2.1
      rfl
  exact ⟨h.1, h.2.1⟩

/-- A concrete roster row used in the stats scenarios. -/
def rosterRowA : StockBasicRow :=
  ⟨"600000.SH", "600000", "A", "上海", "银行", "SH", "19991110"⟩

/-- A quote row whose `close` is `0`: the overlay is populated on the
merged record, but the stats filter `s.currentPrice && s.currentPrice
> 0` does not count it. -/
def dailyZeroRow : DailyRow :=
  ⟨"600000.SH", "20240101", 0, 9, -9, -100, 0, 0⟩

/-- The metadata the route produces when the quote map was populated
and the indicator map was not. -/
def mdQuoteOnly : BatchMetadata :=
  ⟨1, 1, true, false, 1, 0, "20240101"⟩

/-- One merged record whose quote overlay is populated with a zero
price. -/
def zeroPriceStocks : List Stock :=
  batchMergeStockData "20240101" [rosterRowA]
    (some (createDataMapDaily [dailyZeroRow])) none

/-- C7 counterexample: (a) a one-record set whose quote overlay is
populated (with `close = 0`) is reported with quote coverage `0`%,
while the claimed formula (populated count over total) gives `100`%;
(b) on the empty record set with the quote dataset present, the
coverage is `NaN` (modelled `none`), not a well-defined number. -/
theorem generateBatchStats_coverage_counterexample :
    zeroPriceStocks.map (fun s => s.quote.isSome) = [true] ∧
    (generateBatchStats zeroPriceStocks mdQuoteOnly).market_data_coverage
      = some 0 ∧
    jsRoundPct 1 1 = 100 ∧
    (generateBatchStats [] mdQuoteOnly).market_data_coverage = none := by
  refine ⟨by decide, by decide, by decide, by decide⟩

/-- The quote row of the spec §8 scenario (`close = 10.5`). -/
def dailyRowScenario : DailyRow :=
  ⟨"600000.SH", "20240101", Rat.mk' 21 2, 10, 1, 5, 1000, 10500⟩

/-- The §8 scenario merge: quote fetch succeeds with one matching row,
indicator fetch throws. -/
def scenarioStocks : List Stock :=
  batchFetchMerge true true "20240101" [rosterRowA]
    (Except.ok [dailyRowScenario]) (Except.error "network failure")

/-- C7 amended: coverage is computed only when the overlay dataset was
present — it is then the count of records whose copied quote price
(resp. TTM P/E) is strictly positive over the total record count,
rounded half-up to an integer percent; with the dataset absent the
coverage is reported as `0`; on an empty record set with both datasets
absent the aggregator returns zeros and an empty industry list, but
with a dataset present and an empty record set the coverage is `NaN`;
the §8 one-record scenario reports quote coverage `100`% and indicator
coverage `0`%. -/
theorem generateBatchStats_coverage_amended (stocks : List Stock)
    (md : BatchMetadata) :
    (md.has_market_data = true → stocks ≠ [] →
      (generateBatchStats stocks md).market_data_coverage =
        some (jsRoundPct (stocks.filter hasPositivePrice).length
          stocks.length)) ∧
    (md.has_basic_indicators = true → stocks ≠ [] →
      (generateBatchStats stocks md).basic_indicators_coverage =
        some (jsRoundPct (stocks.filter hasPositivePE).length
          stocks.length)) ∧
    (md.has_market_data = false →
      (generateBatchStats stocks md).market_data_coverage = some 0) ∧
    (md.has_basic_indicators = false →
      (generateBatchStats stocks md).basic_indicators_coverage =
        some 0) ∧
    (md.has_market_data = true → stocks = [] →
      (generateBatchStats stocks md).market_data_coverage = none) ∧
    (md.has_market_data = false → md.has_basic_indicators = false →
      (generateBatchStats [] md).market_data_coverage = some 0 ∧
      (generateBatchStats [] md).basic_indicators_coverage = some 0 ∧
      (generateBatchStats [] md).industries = [] ∧
      (generateBatchStats [] md).with_market_data = 0 ∧
      (generateBatchStats [] md).total_stocks = 0) ∧
    ((generateBatchStats scenarioStocks mdQuoteOnly).market_data_coverage
        = some 100 ∧
      (generateBatchStats scenarioStocks
        mdQuoteOnly).basic_indicators_coverage = some 0) := by
  refine ⟨?_, ?_, ?_, ?_, ?_, ?_, by decide, by decide⟩
  · intro h1 h2
    have hl : stocks.length ≠ 0 := by
      simpa using fun hc => h2 (List.length_eq_zero.mp hc)
    simp [generateBatchStats, coverageOf, h1, hl]
  · intro h1 h2
    have hl : stocks.length ≠ 0 := by
      simpa using fun hc => h2 (List.length_eq_zero.mp hc)
    simp [generateBatchStats, coverageOf, h1, hl]
  · intro h1
    simp [generateBatchStats, h1]
  · intro h1
    simp [generateBatchStats, h1]
  · intro h1 h2
    subst h2
    simp [generateBatchStats, coverageOf, h1]
  · intro h1 h2
    simp [generateBatchStats, getTopIndustries, industryCounts,
      sortByCountDesc, h1, h2]

/-- C7 amended witness at the §8 scenario. -/
theorem generateBatchStats_coverage_amended_witness :
    (generateBatchStats scenarioStocks mdQuoteOnly).market_data_coverage
      = some (jsRoundPct
          (scenarioStocks.filter hasPositivePrice).length
          scenarioStocks.length) :=
  (generateBatchStats_coverage_amended scenarioStocks mdQuoteOnly).1 rfl
    (by decide)

/-- Non-empty input failing the 8-digit test is rejected by
`RequestValidator.dateFormat` with a `ValidationError`. -/
theorem dateFormat_rejects (s fn : String) (h1 : s ≠ "")
    (h2 : isDate8 s = false) :
    RequestValidator.dateFormat s fn =
      Except.error (RouteError.validation
        ("Invalid " ++ fn ++ " format. Expected YYYYMMDD, got: "
          ++ s)) := by
  have hb : (s != "") = true := bne_iff_ne.mpr h1
  simp [RequestValidator.dateFormat, hb, h2]

/-- C8 counterexample: the claim quantifies over every caller-supplied
trade date not matching the 8-digit format, but the empty string — which
matches neither — is not rejected: the route replaces it by the default
date and proceeds to the upstream calls (the result is an `ok`
aggregation, not a `ValidationError`). -/
theorem batchFetch_empty_trade_date_accepted :
    batchFetchValidate none (some "") "20240101" =
      Except.ok "20240101" ∧
    isDate8 "" = false ∧
    (batchFetchRoute none (some "") "20240101" false false none
        (Except.ok [rosterRowA]) (Except.error "e")
        (Except.error "e")).toOption.isSome = true := by
  refine ⟨rfl, rfl, by decide⟩

/-- C8 amended: every NON-EMPTY caller-supplied trade date failing the
8-digit format, and every non-empty instrument code failing the
`\d{6}\.(SH|SZ)` pattern, is rejected with a `ValidationError`; in the
batch route the rejection happens during the parameter phase, so the
result is the same for every fetch outcome — the upstream client is
never invoked.  (An empty trade date is replaced by the default date
instead of being rejected.) -/
theorem validation_rejects_malformed (s c fn : String)
    (market : Option String) (dd : String) (im ib : Bool)
    (lim : Option Nat) (rf : Except String (List StockBasicRow))
    (df : Except String (List DailyRow))
    (bf : Except String (List DailyBasicRow)) :
    (s ≠ "" → isDate8 s = false →
      RequestValidator.dateFormat s fn =
        Except.error (RouteError.validation
          ("Invalid " ++ fn ++ " format. Expected YYYYMMDD, got: "
            ++ s))) ∧
    (c ≠ "" → isStockCodeFormat c = false →
      RequestValidator.stockCode c fn =
        Except.error (RouteError.validation
          ("Invalid " ++ fn ++
            " format. Expected XXXXXX.SH or XXXXXX.SZ, got: "
            ++ c))) ∧
    (s ≠ "" → isDate8 s = false → marketCheck market = Except.ok () →
      batchFetchRoute market (some s) dd im ib lim rf df bf =
        Except.error (RouteError.validation
          ("Invalid trade_date format. Expected YYYYMMDD, got: "
            ++ s))) := by
  refine ⟨dateFormat_rejects s fn, ?_, ?_⟩
  · intro h1 h2
    have hb : (c != "") = true := bne_iff_ne.mpr h1
    simp [RequestValidator.stockCode, hb, h2]
  · intro h1 h2 hm
    have hs : (s == "") = false := beq_eq_false_iff_ne.mpr h1
    simp [batchFetchRoute, batchFetchValidate, effectiveTradeDate, hm,
      hs, dateFormat_rejects s "trade_date" h1 h2]

/-- C8 amended witness: a dashed date is rejected before any fetch is
consumed. -/
theorem validation_rejects_malformed_witness :
    batchFetchRoute none (some "2024-01-01") "20240101" true true none
        (Except.ok [rosterRowA]) (Except.ok []) (Except.ok []) =
      Except.error (RouteError.validation
        ("Invalid trade_date format. Expected YYYYMMDD, got: "
          ++ "2024-01-01")) := by
  have h := (validation_rejects_malformed "2024-01-01" "000001.SZ"
    "trade_date" none "20240101" true true none
    (Except.ok [rosterRowA]) (Except.ok []) (Except.ok [])).2.2
  exact h (by decide) (by decide) rfl

/-- A name that never occurs has no last index. -/
theorem lastIndexOf_of_not_mem (l : List String) (f : String)
    (h : f ∉ l) : lastIndexOf l f = none := by
  induction l with
  | nil => rfl
  | cons a rest ih =>
      simp only [List.mem_cons, not_or] at h
      have hb : (a == f) = false := beq_eq_false_iff_ne.mpr (Ne.symm h.1)
      simp [lastIndexOf, ih h.2, hb]

/-- An occurrence with no later occurrence is the last index. -/
theorem lastIndexOf_last_occurrence (l : List String) (f : String) :
    ∀ i, l.get? i = some f → f ∉ l.drop (i + 1) →
      lastIndexOf l f = some i := by
  induction l with
  | nil => intro i h1 _; simp at h1
  | cons a rest ih =>
      intro i h1 h2
      cases i with
      | zero =>
          simp only [List.get?_cons_zero, Option.some.injEq] at h1
          subst h1
          simp [lastIndexOf, lastIndexOf_of_not_mem rest a
            (by simpa using h2)]
      | succ j =>
          have h1a : rest.get? j = some f := by simpa using h1
          have h2a : f ∉ rest.drop (j + 1) := by simpa using h2
          simp [lastIndexOf, ih j h1a h2a]

/-- C9 counterexample: with the duplicated field list `["a", "a"]` and
the row `[1, 2]`, the built object's value at `fields[0] = "a"` is the
row's second element (the later assignment wins), not its 0-th element
as the claim states. -/
theorem transformResponse_duplicate_field_counterexample :
    ((transformResponse
        ⟨"r1", 0, "",
          some ⟨some ["a", "a"], some [[JsVal.num 1, JsVal.num 2]],
            false⟩⟩).get? 0).map (fun obj => obj "a") =
      some (some (some (JsVal.num 2))) ∧
    (["a", "a"].get? 0 = some "a") ∧
    ([JsVal.num 1, JsVal.num 2].get? 0 = some (JsVal.num 1)) ∧
    JsVal.num 2 ≠ JsVal.num 1 ∧
    (transformResponse
        ⟨"r1", 0, "",
          some ⟨some ["a", "a"], some [[JsVal.num 1, JsVal.num 2]],
            false⟩⟩).length = 1 := by
  refine ⟨by decide, by decide, by decide, by decide, by decide⟩

/-- C9 amended: `transformResponse` returns the empty array when the
`data` block, the field list, or the item list is missing; otherwise
one object per data row (so the output length equals the row count, in
row order), where the object's value at name `fields[i]` is the row's
`i`-th element whenever `fields[i]` does not occur again at a later
index (for duplicated names the last occurrence wins). -/
theorem transformResponse_shape (r : TushareResponse) :
    (r.data = none → transformResponse r = []) ∧
    (∀ d, r.data = some d → d.fields = none →
      transformResponse r = []) ∧
    (∀ d, r.data = some d → d.items = none →
      transformResponse r = []) ∧
    (∀ d fs its, r.data = some d → d.fields = some fs →
      d.items = some its →
      (transformResponse r).length = its.length ∧
      (∀ j, (transformResponse r).get? j =
        (its.get? j).map (fun it => rowObject fs it)) ∧
      (∀ it f i, fs.get? i = some f → f ∉ fs.drop (i + 1) →
        rowObject fs it f = some (it.get? i))) := by
  refine ⟨?_, ?_, ?_, ?_⟩
  · intro h
    simp [transformResponse, h]
  · intro d hd hf
    simp [transformResponse, hd, hf]
  · intro d hd hi
    cases hfs : d.fields with
    | none => simp [transformResponse, hd, hfs]
    | some fs => simp [transformResponse, hd, hfs, hi]
  · intro d fs its hd hf hi
    refine ⟨?_, ?_, ?_⟩
    · simp [transformResponse, hd, hf, hi]
    · intro j
      simp [transformResponse, hd, hf, hi, List.get?_map]
    · intro it f i h1 h2
      simp [rowObject, lastIndexOf_last_occurrence fs f i h1 h2]

/-- C9 amended witness: distinct fields `["a", "b"]`, one row. -/
theorem transformResponse_shape_witness :
    (transformResponse
        ⟨"r2", 0, "",
          some ⟨some ["a", "b"], some [[JsVal.num 7]], false⟩⟩).length
      = 1 ∧
    rowObject ["a", "b"] [JsVal.num 7] "a" =
      some (some (JsVal.num 7)) := by
  have h := (transformResponse_shape
    ⟨"r2", 0, "",
      some ⟨some ["a", "b"], some [[JsVal.num 7]], false⟩⟩).2.2.2
    ⟨some ["a", "b"], some [[JsVal.num 7]], false⟩ ["a", "b"]
    [[JsVal.num 7]] rfl rfl rfl
  exact ⟨h.1, h.2.2 [JsVal.num 7] "a" 0 rfl (by decide)⟩
